import Mathlib

/-!
goAuth: the authentication request lifecycle.

A shallow embedding of `internal/auth/auth.go` and `internal/server/routes.go`.

The repository's own code is configuration and request handling; the OAuth
exchange (`gothic`), the cookie store (`gorilla/sessions`), the router
(`chi`) and the response writer (`net/http`) are libraries.  The response
writer and the router's pattern matching are modelled by their documented
behaviour; the calls into `gothic`, the database health check and
`json.Marshal` are parameters of the handlers, so the statements about the
handlers hold for whatever those collaborators answer.  For the requests that
name an unregistered provider, `gothic` is instantiated by the way it finds
the provider of a request among the registered ones.
-/

set_option autoImplicit false

namespace GoAuth

/-! ## net/http: headers, response writer, request -/

/-- A header map, as the list of its (key, value) lines in insertion order. -/
abbrev Header := List (String × String)

namespace Header

/-- `h.Set(k, v)`: replaces every line of key `k` by the single line `(k, v)`. -/
def set (h : Header) (k v : String) : Header :=
  h.filter (fun kv => kv.1 != k) ++ [(k, v)]

/-- `h.Add(k, v)`: appends a line. -/
def add (h : Header) (k v : String) : Header :=
  h ++ [(k, v)]

/-- `h.Del(k)`. -/
def del (h : Header) (k : String) : Header :=
  h.filter (fun kv => kv.1 != k)

/-- `h.Values(k)`: all values of key `k`, in order. -/
def values (h : Header) (k : String) : List String :=
  (h.filter (fun kv => kv.1 == k)).map (fun kv => kv.2)

/-- `_, ok := h[k]`. -/
def has (h : Header) (k : String) : Bool :=
  h.any (fun kv => kv.1 == k)

end Header

/-- The state of an `http.ResponseWriter`: the live header map, whether the
status line has been committed, and, once committed, the status, the headers
as they stood at that moment, and the body written so far. -/
structure ResponseWriter where
  header : Header
  wroteHeader : Bool
  status : Nat
  sent : Header
  body : String
deriving DecidableEq, Repr

namespace ResponseWriter

/-- The writer a handler receives: nothing set, nothing committed. -/
def fresh : ResponseWriter :=
  { header := [], wroteHeader := false, status := 0, sent := [], body := "" }

/-- `w.Header().Set(k, v)`. -/
def setHeader (w : ResponseWriter) (k v : String) : ResponseWriter :=
  { w with header := w.header.set k v }

/-- `w.Header().Add(k, v)`. -/
def addHeader (w : ResponseWriter) (k v : String) : ResponseWriter :=
  { w with header := w.header.add k v }

/-- `w.Header().Del(k)`. -/
def delHeader (w : ResponseWriter) (k : String) : ResponseWriter :=
  { w with header := w.header.del k }

/-- `w.WriteHeader(code)`: commits the status and the current headers; a
second call is superfluous and changes nothing. -/
def WriteHeader (w : ResponseWriter) (code : Nat) : ResponseWriter :=
  if w.wroteHeader then w
  else { w with wroteHeader := true, status := code, sent := w.header }

/-- `w.Write(b)`: commits status 200 first when nothing was committed. -/
def Write (w : ResponseWriter) (b : String) : ResponseWriter :=
  let w1 := w.WriteHeader 200
  { w1 with body := w1.body ++ b }

end ResponseWriter

/-- What the client receives. -/
structure Response where
  status : Nat
  header : Header
  body : String
deriving DecidableEq, Repr

/-- The response sent when the handler returns: an uncommitted writer is
committed with status 200. -/
def ResponseWriter.finish (w : ResponseWriter) : Response :=
  let w1 := w.WriteHeader 200
  { status := w1.status, header := w1.sent, body := w1.body }

/-- The first value of header `k` in a response, if any. -/
def Response.get (r : Response) (k : String) : Option String :=
  (Header.values r.header k).head?

/-- An inbound request: method, path, raw query, the URL parameters bound by
the router (chi route context) and the values stored in the request context
(most recent first). -/
structure Request where
  method : String
  path : String
  query : String
  urlParams : List (String × String)
  ctx : List (String × String)
deriving DecidableEq, Repr

/-- `chi.URLParam(r, key)`: the bound value, or the empty string. -/
def URLParam (r : Request) (key : String) : String :=
  ((r.urlParams.find? (fun kv => kv.1 == key)).map (fun kv => kv.2)).getD ""

/-- `r.WithContext(context.WithValue(r.Context(), key, val))`. -/
def Request.WithContextValue (r : Request) (key val : String) : Request :=
  { r with ctx := (key, val) :: r.ctx }

/-- `r.Context().Value(key)`. -/
def Request.ContextValue (r : Request) (key : String) : Option String :=
  (r.ctx.find? (fun kv => kv.1 == key)).map (fun kv => kv.2)

/-- `http.StatusText` on the codes this program uses. -/
def StatusText (code : Nat) : String :=
  if code = 200 then "OK"
  else if code = 302 then "Found"
  else if code = 307 then "Temporary Redirect"
  else if code = 400 then "Bad Request"
  else if code = 401 then "Unauthorized"
  else ""

/-- The escaping `http.Redirect` applies to the URL inside the HTML body. -/
def htmlEscape (s : String) : String :=
  String.join (s.toList.map (fun c =>
    if c = '&' then "&amp;"
    else if c = '<' then "&lt;"
    else if c = '>' then "&gt;"
    else if c = '"' then "&#34;"
    else if c = (Char.ofNat 39) then "&#39;"
    else c.toString))

/-- `http.Error(w, msg, code)`: plain-text headers, the status, then the
message followed by a newline. -/
def httpError (w : ResponseWriter) (msg : String) (code : Nat) : ResponseWriter :=
  let w1 := w.delHeader "Content-Length"
  let w2 := w1.setHeader "Content-Type" "text/plain; charset=utf-8"
  let w3 := w2.setHeader "X-Content-Type-Options" "nosniff"
  let w4 := w3.WriteHeader code
  w4.Write (msg ++ "\n")

/-- `http.Redirect(w, r, url, code)` for a URL that carries its scheme and
host (the only kind this program passes), which is used unchanged. -/
def httpRedirect (w : ResponseWriter) (r : Request) (url : String) (code : Nat) :
    ResponseWriter :=
  let hadCT := w.header.has "Content-Type"
  let w1 := w.setHeader "Location" url
  let w2 := if !hadCT && (r.method == "GET" || r.method == "HEAD")
    then w1.setHeader "Content-Type" "text/html; charset=utf-8" else w1
  let w3 := w2.WriteHeader code
  if !hadCT && r.method == "GET"
    then w3.Write ("<a href=\"" ++ htmlEscape url ++ "\">" ++ StatusText code ++ "</a>.\n" ++ "\n")
    else w3

/-! ## goth / gothic: the identity provider client -/

/-- The fields of `goth.User` that this program reads (`ExpiresAt` as the
text it prints as). -/
structure User where
  Provider : String
  Email : String
  Name : String
  FirstName : String
  LastName : String
  NickName : String
  Description : String
  UserID : String
  AvatarURL : String
  Location : String
  AccessToken : String
  RefreshToken : String
  ExpiresAt : String
deriving DecidableEq, Repr

/-- What one call of `gothic.CompleteUserAuth(w, r)` answers: the user or an
error, together with the `Set-Cookie` lines its session store added to the
response while it ran.  The library reaches the response only through the
session store; it never commits a status or writes a body. -/
structure AuthOutcome where
  cookies : List String
  result : Except String User

/-- The three entry points of `gothic` the handlers call.  `BeginAuthHandler`
is itself a handler and writes the response as it sees fit; `Logout` answers
the cookie lines it wrote and its error, if any. -/
structure Gothic where
  CompleteUserAuth : Request → AuthOutcome
  BeginAuthHandler : Request → ResponseWriter → ResponseWriter
  Logout : Request → List String × Option String

/-- The session store writing its cookie lines on the response. -/
def storeCookies (w : ResponseWriter) (cookies : List String) : ResponseWriter :=
  cookies.foldl (fun acc c => acc.addHeader "Set-Cookie" c) w

/-! ## internal/server/routes.go: the handlers -/

/-- What a handler reaches besides the request: the `gothic` package, the
result of `s.db.Health()` for this request and `json.Marshal` on it (bytes
and error, as Go returns them). -/
structure Server (H : Type) where
  gothic : Gothic
  dbHealth : H
  jsonMarshal : H → String × Option String

/-- A call into a collaborator, as recorded in the order it is made. -/
inductive Call where
  | CompleteUserAuth (r : Request)
  | BeginAuthHandler (r : Request)
  | Logout (r : Request)
  | Health
deriving DecidableEq, Repr

/-- An argument of a `log.Printf` line. -/
inductive LogArg where
  | str (s : String)
  | err (e : String)
  | user (u : User)
deriving DecidableEq, Repr

/-- One `log.Printf(format, args...)`. -/
structure LogLine where
  format : String
  args : List LogArg
deriving DecidableEq, Repr

/-- The outcome of running a handler: the response writer as it leaves it,
the lines it logged and the collaborator calls it made. -/
structure Exec where
  w : ResponseWriter
  log : List LogLine
  calls : List Call
deriving DecidableEq, Repr

/-- The response the client receives from a handler run. -/
def Exec.response (e : Exec) : Response := e.w.finish

/-- The data `indexHandler` hands to its template. -/
structure ProviderIndex where
  Providers : List String
  ProvidersMap : List (String × String)
deriving DecidableEq, Repr

/-- The text of `indexTemplate` executed on one provider entry. -/
def indexEntry (providersMap : List (String × String)) (value : String) : String :=
  "\n    <p><a href=\"/auth/" ++ value ++ "\">Log in with "
    ++ ((providersMap.find? (fun kv => kv.1 == value)).map (fun kv => kv.2)).getD ""
    ++ "</a></p>\n"

/-- The text of `indexTemplate` executed on a `ProviderIndex`. -/
def indexTemplate (providerIndex : ProviderIndex) : String :=
  String.join (providerIndex.Providers.map (indexEntry providerIndex.ProvidersMap))

/-- The text of `userTemplate` executed on a user (text/template, which
escapes nothing). -/
def userTemplate (u : User) : String :=
  "\n<p><a href=\"/logout/" ++ u.Provider ++ "\">logout</a></p>"
    ++ "\n<p>Name: " ++ u.Name ++ " [" ++ u.LastName ++ ", " ++ u.FirstName ++ "]</p>"
    ++ "\n<p>Email: " ++ u.Email ++ "</p>"
    ++ "\n<p>NickName: " ++ u.NickName ++ "</p>"
    ++ "\n<p>Location: " ++ u.Location ++ "</p>"
    ++ "\n<p>AvatarURL: " ++ u.AvatarURL ++ " <img src=\"" ++ u.AvatarURL ++ "\"></p>"
    ++ "\n<p>Description: " ++ u.Description ++ "</p>"
    ++ "\n<p>UserID: " ++ u.UserID ++ "</p>"
    ++ "\n<p>AccessToken: " ++ u.AccessToken ++ "</p>"
    ++ "\n<p>ExpiresAt: " ++ u.ExpiresAt ++ "</p>"
    ++ "\n<p>RefreshToken: " ++ u.RefreshToken ++ "</p>"

/-- `indexHandler`: renders the login links. -/
def indexHandler {H : Type} (_s : Server H) (w : ResponseWriter) (_r : Request) : Exec :=
  let providerIndex : ProviderIndex :=
    { Providers := ["google"], ProvidersMap := [("google", "Google")] }
  { w := w.Write (indexTemplate providerIndex), log := [], calls := [] }

/-- `logoutHandler`: `gothic.Logout`, whose error is dropped, then the
`Location` header and status 307. -/
def logoutHandler {H : Type} (s : Server H) (w : ResponseWriter) (r : Request) : Exec :=
  let w1 := storeCookies w (s.gothic.Logout r).1
  let w2 := w1.setHeader "Location" "/"
  let w3 := w2.WriteHeader 307
  { w := w3, log := [], calls := [Call.Logout r] }

/-- `authHandler`: shows the user when `CompleteUserAuth` succeeds, otherwise
hands a request carrying the provider in its context to `BeginAuthHandler`. -/
def authHandler {H : Type} (s : Server H) (w : ResponseWriter) (r : Request) : Exec :=
  let provider := URLParam r "provider"
  let out := s.gothic.CompleteUserAuth r
  let w1 := storeCookies w out.cookies
  match out.result with
  | Except.ok gothUser =>
    { w := w1.Write (userTemplate gothUser), log := [], calls := [Call.CompleteUserAuth r] }
  | Except.error _ =>
    let req := r.WithContextValue "provider" provider
    { w := s.gothic.BeginAuthHandler req w1, log := [],
      calls := [Call.CompleteUserAuth r, Call.BeginAuthHandler req] }

/-- `healthHandler`: marshals the health result, dropping the error, and
writes it as JSON. -/
def healthHandler {H : Type} (s : Server H) (w : ResponseWriter) (_r : Request) : Exec :=
  let jsonResp := (s.jsonMarshal s.dbHealth).1
  let w1 := w.setHeader "Content-Type" "application/json"
  { w := w1.Write jsonResp, log := [], calls := [Call.Health] }

/-- The lines `getAuthCallbackFunction` logs about a user. -/
def userLogLines (user : User) : List LogLine :=
  [ ⟨"User details: %+v", [LogArg.user user]⟩,
    ⟨"User email: %s", [LogArg.str user.Email]⟩,
    ⟨"User name: %s", [LogArg.str user.Name]⟩,
    ⟨"User nickname: %s", [LogArg.str user.NickName]⟩,
    ⟨"User location: %s", [LogArg.str user.Location]⟩,
    ⟨"User avatar URL: %s", [LogArg.str user.AvatarURL]⟩,
    ⟨"User description: %s", [LogArg.str user.Description]⟩,
    ⟨"User ID: %s", [LogArg.str user.UserID]⟩,
    ⟨"User access token: %s", [LogArg.str user.AccessToken]⟩,
    ⟨"User expires at: %s", [LogArg.str user.ExpiresAt]⟩,
    ⟨"User refresh token: %s", [LogArg.str user.RefreshToken]⟩ ]

/-- `getAuthCallbackFunction`: completes the authentication on a request
carrying the provider in its context; 401 on error, otherwise logs the user
and redirects to the frontend. -/
def getAuthCallbackFunction {H : Type} (s : Server H) (w : ResponseWriter) (r : Request) :
    Exec :=
  let provider := URLParam r "provider"
  let r1 := r.WithContextValue "provider" provider
  let out := s.gothic.CompleteUserAuth r1
  let w1 := storeCookies w out.cookies
  match out.result with
  | Except.error err =>
    { w := httpError w1 "Authentication failed" 401,
      log := [⟨"Error during authentication: %v", [LogArg.err err]⟩],
      calls := [Call.CompleteUserAuth r1] }
  | Except.ok user =>
    { w := httpRedirect w1 r1 "http://localhost:5173" 302,
      log := userLogLines user,
      calls := [Call.CompleteUserAuth r1] }

/-! ## internal/auth/auth.go: the initializer -/

/-- The session signing key. -/
def key : String := "randomString"

/-- The session lifetime in seconds. -/
def MaxAge : Int := 86400 * 30

/-- The production toggle. -/
def IsProd : Bool := false

/-- The cookie options of `sessions.Options` that the initializer sets. -/
structure Options where
  Path : String
  Domain : String
  MaxAge : Int
  Secure : Bool
  HttpOnly : Bool
deriving DecidableEq, Repr

/-- A `sessions.CookieStore`: its key, its options and the max-age of its
codecs. -/
structure CookieStore where
  keyPairs : String
  Options : Options
  codecMaxAge : Int
deriving DecidableEq, Repr

/-- `store.MaxAge(age)`: sets the option and the codecs. -/
def CookieStore.setMaxAge (store : CookieStore) (age : Int) : CookieStore :=
  { store with Options := { store.Options with MaxAge := age }, codecMaxAge := age }

/-- A registered `goth.Provider`. -/
structure Provider where
  name : String
  ClientKey : String
  Secret : String
  CallbackURL : String
deriving DecidableEq, Repr

/-- `google.New(clientKey, secret, callbackURL)`. -/
def googleNew (clientKey secret callbackURL : String) : Provider :=
  { name := "google", ClientKey := clientKey, Secret := secret, CallbackURL := callbackURL }

/-- The process-wide registrations: `gothic.Store`, the providers of `goth`,
and what was printed on standard output. -/
structure Globals where
  Store : Option CookieStore
  providers : List Provider
  stdout : List String
deriving DecidableEq, Repr

/-- `goth.UseProviders(p)`: registers `p` under its name, replacing a
provider of the same name. -/
def UseProviders (g : Globals) (p : Provider) : Globals :=
  { g with providers := g.providers.filter (fun q => q.name != p.name) ++ [p] }

/-- `goth.GetProvider(name)`. -/
def GetProvider (g : Globals) (name : String) : Option Provider :=
  g.providers.find? (fun q => q.name == name)

/-- `NewAuth`.  `loadError` is the error of `godotenv.Load`, if any, and
`Getenv` reads the environment as it stands after the load;
`NewCookieStore` is the session library's constructor.  `log.Fatal` ends
the process: the run has no resulting state. -/
def NewAuth (NewCookieStore : String → CookieStore) (loadError : Option String)
    (Getenv : String → String) (g : Globals) : Except String Globals :=
  match loadError with
  | some _ => Except.error "Error loading .env file"
  | none =>
    let googleClientId := Getenv "GOOGLE_CLIENT_ID"
    let googleClientSecret := Getenv "GOOGLE_CLIENT_SECRET"
    let store := NewCookieStore key
    let store1 := store.setMaxAge MaxAge
    let store2 := { store1 with Options := { store1.Options with Path := "/" } }
    let store3 := { store2 with Options := { store2.Options with HttpOnly := true } }
    let store4 := { store3 with Options := { store3.Options with Secure := IsProd } }
    let g1 := { g with Store := some store4 }
    let g2 := UseProviders g1
      (googleNew googleClientId googleClientSecret "http://localhost:3000/auth/callback/google/")
    Except.ok { g2 with stdout := g2.stdout ++ ["Authentication initialized."] }

/-! ## gothic: how the provider of a request is found -/

/-- The pieces of a raw query string, separated at `&`. -/
def splitAmp : List Char → List (List Char)
  | [] => [[]]
  | c :: cs =>
    if c = '&' then [] :: splitAmp cs
    else
      match splitAmp cs with
      | [] => [[c]]
      | x :: xs => (c :: x) :: xs

/-- A piece of a query string split at its first `=`: key and value. -/
def splitEq : List Char → List Char × List Char
  | [] => ([], [])
  | c :: cs => if c = '=' then ([], cs) else (c :: (splitEq cs).1, (splitEq cs).2)

/-- `r.URL.Query().Get(k)` on a raw query string that carries no escapes:
the value of the first pair of key `k`, or the empty string. -/
def queryGet (q k : String) : String :=
  match ((splitAmp q.data).map splitEq).find? (fun kv => kv.1 = k.data) with
  | some kv => String.mk kv.2
  | none => ""

/-- What lies behind the registered providers and the session cookie of a
request: the provider a stored session names (the last resort of the name
resolution), the start of a flow (the authorization URL and the cookie lines
stored, or an error), the completion of one, which is where the identity
provider is contacted, and the clearing of the session. -/
structure Upstream where
  sessionProvider : Request → Option String
  BeginAuth : Provider → Request → Except String (String × List String)
  Complete : Provider → Request → AuthOutcome
  Logout : Request → List String × Option String

/-- `gothic.GetProviderName`: the query string comes first, then the request
context, then the URL parameter bound by the router, then the session. -/
def GetProviderName (up : Upstream) (r : Request) : Except String String :=
  if queryGet r.query "provider" ≠ "" then Except.ok (queryGet r.query "provider")
  else if queryGet r.query ":provider" ≠ "" then Except.ok (queryGet r.query ":provider")
  else
    match r.ContextValue "provider" with
    | some p => Except.ok p
    | none =>
      if URLParam r "provider" ≠ "" then Except.ok (URLParam r "provider")
      else
        match up.sessionProvider r with
        | some p => Except.ok p
        | none => Except.error "you must select a provider"

/-- `goth.GetProvider` with its error. -/
def lookupProvider (g : Globals) (name : String) : Except String Provider :=
  match GetProvider g name with
  | some p => Except.ok p
  | none => Except.error ("no provider for " ++ name ++ " exists")

/-- `gothic.GetAuthURL`: the provider named by the request must be
registered; then the flow is started. -/
def GetAuthURL (g : Globals) (up : Upstream) (r : Request) :
    Except String (String × List String) :=
  match GetProviderName up r with
  | Except.error err => Except.error err
  | Except.ok providerName =>
    match lookupProvider g providerName with
    | Except.error err => Except.error err
    | Except.ok provider => up.BeginAuth provider r

/-- The `gothic` package over the providers registered in `g`: a request
naming no registered provider is rejected before any session or upstream is
looked at; `BeginAuthHandler` answers 400 with the error, or redirects with
status 307 to the authorization URL. -/
def gothicOver (g : Globals) (up : Upstream) : Gothic :=
  { CompleteUserAuth := fun r =>
      match GetProviderName up r with
      | Except.error err => { cookies := [], result := Except.error err }
      | Except.ok providerName =>
        match lookupProvider g providerName with
        | Except.error err => { cookies := [], result := Except.error err }
        | Except.ok provider => up.Complete provider r,
    BeginAuthHandler := fun r w =>
      match GetAuthURL g up r with
      | Except.error err => (w.WriteHeader 400).Write (err ++ "\n")
      | Except.ok (url, cookies) => httpRedirect (storeCookies w cookies) r url 307,
    Logout := up.Logout }

/-! ## chi: route patterns and dispatch -/

/-- A piece of a route pattern: literal text or a named parameter. -/
inductive Seg where
  | static (s : List Char)
  | param (name : String)
deriving DecidableEq, Repr

/-- Splits a pattern into its pieces: `\x7bname\x7d` is a parameter, everything
else is literal.  `inParam` tells whether an opening brace is pending and
`cur` holds the characters of the piece being read, most recent first. -/
def parsePattern : List Char → Bool → List Char → List Seg
  | [], false, cur => if cur.isEmpty then [] else [Seg.static cur.reverse]
  | [], true, cur => [Seg.param (String.mk cur.reverse)]
  | c :: cs, false, cur =>
    if c = '\x7b' then
      (if cur.isEmpty then [] else [Seg.static cur.reverse]) ++ parsePattern cs true []
    else parsePattern cs false (c :: cur)
  | c :: cs, true, cur =>
    if c = '\x7d' then Seg.param (String.mk cur.reverse) :: parsePattern cs false []
    else parsePattern cs true (c :: cur)

/-- Removes the literal `s` from the front of `path`, if it is there. -/
def stripStatic : List Char → List Char → Option (List Char)
  | [], path => some path
  | _ :: _, [] => none
  | c :: cs, d :: ds => if c = d then stripStatic cs ds else none

/-- Splits `path` at its first slash: the parameter value and what follows. -/
def paramSplit : List Char → List Char × List Char
  | [] => ([], [])
  | c :: cs => if c = '/' then ([], c :: cs) else ((c :: (paramSplit cs).1), (paramSplit cs).2)

/-- Matches a path against the pieces of a pattern and answers the bound
parameters.  A parameter takes the text up to the next slash or the end
(every parameter of this program's table ends its pattern), never across
segments; the whole path must be consumed.  Versions of the router differ on
whether a parameter may be bound when nothing of the path is left:
`emptyParam` says whether it may. -/
def matchSegs (emptyParam : Bool) : List Seg → List Char → Option (List (String × String))
  | [], [] => some []
  | [], _ :: _ => none
  | Seg.static s :: rest, path =>
    match stripStatic s path with
    | some path1 => matchSegs emptyParam rest path1
    | none => none
  | Seg.param name :: rest, path =>
    if path.isEmpty && !emptyParam then none
    else
      (matchSegs emptyParam rest (paramSplit path).2).map
        (fun ps => (name, String.mk (paramSplit path).1) :: ps)

/-- The handlers of `routes.go` that the table names. -/
inductive HandlerId where
  | indexHandler
  | healthHandler
  | authHandler
  | getAuthCallbackFunction
  | logoutHandler
deriving DecidableEq, Repr

/-- One line of the routing table. -/
structure Route where
  method : String
  pattern : String
  handler : HandlerId
deriving DecidableEq, Repr

/-- The routes `RegisterRoutes` installs, each with `r.Get`. -/
def RegisterRoutes : List Route :=
  [ ⟨"GET", "/", HandlerId.indexHandler⟩,
    ⟨"GET", "/health", HandlerId.healthHandler⟩,
    ⟨"GET", "/auth/\x7bprovider\x7d", HandlerId.authHandler⟩,
    ⟨"GET", "/auth/callback/\x7bprovider\x7d", HandlerId.getAuthCallbackFunction⟩,
    ⟨"GET", "/logout/\x7bprovider\x7d", HandlerId.logoutHandler⟩ ]

/-- The parameters a route binds on a path, when its pattern matches. -/
def Route.bind (emptyParam : Bool) (rt : Route) (path : String) :
    Option (List (String × String)) :=
  matchSegs emptyParam (parsePattern rt.pattern.data false []) path.data

/-- Where the router sends a request. -/
inductive Dispatch where
  | found (h : HandlerId) (r : Request)
  | methodNotAllowed
  | notFound
deriving DecidableEq, Repr

/-- The first route of the wanted method whose pattern matches, with the
request it hands to the handler (the bound parameters installed). -/
def findHandler (emptyParam : Bool) (r : Request) : List Route → Option (HandlerId × Request)
  | [] => none
  | rt :: rest =>
    match (if rt.method == r.method then rt.bind emptyParam r.path else none) with
    | some ps => some (rt.handler, { r with urlParams := ps })
    | none => findHandler emptyParam r rest

/-- The router's decision on a request: the handler of the matching route,
405 when only routes of other methods match the path, 404 otherwise. -/
def dispatch (emptyParam : Bool) (routes : List Route) (r : Request) : Dispatch :=
  match findHandler emptyParam r routes with
  | some (h, r1) => Dispatch.found h r1
  | none =>
    if routes.any (fun rt => (rt.bind emptyParam r.path).isSome) then Dispatch.methodNotAllowed
    else Dispatch.notFound

/-- Runs the handler a name stands for. -/
def HandlerId.run {H : Type} (h : HandlerId) (s : Server H) (w : ResponseWriter)
    (r : Request) : Exec :=
  match h with
  | HandlerId.indexHandler => GoAuth.indexHandler s w r
  | HandlerId.healthHandler => GoAuth.healthHandler s w r
  | HandlerId.authHandler => GoAuth.authHandler s w r
  | HandlerId.getAuthCallbackFunction => GoAuth.getAuthCallbackFunction s w r
  | HandlerId.logoutHandler => GoAuth.logoutHandler s w r

/-- The mux serving a request: the matched handler runs; an unmatched path
gets `http.NotFound`, a matched path of another method an empty 405.  The
logging and cross-origin middleware wrapped around the mux take no part in
the choice of the handler and are left out. -/
def ServeHTTP {H : Type} (emptyParam : Bool) (s : Server H) (w : ResponseWriter)
    (r : Request) : Exec :=
  match dispatch emptyParam RegisterRoutes r with
  | Dispatch.found h r1 => h.run s w r1
  | Dispatch.methodNotAllowed =>
    { w := (w.WriteHeader 405).Write "", log := [], calls := [] }
  | Dispatch.notFound =>
    { w := httpError w "404 page not found" 404, log := [], calls := [] }

/-- The URL `NewAuth` registers with the Google provider. -/
def callbackURL : String := "http://localhost:3000/auth/callback/google/"

/-- Drops everything up to and including the `://` of a URL. -/
def dropScheme : List Char → List Char
  | [] => []
  | c :: cs =>
    match c, cs with
    | ':', '/' :: '/' :: rest => rest
    | _, _ => dropScheme cs

/-- Drops the host of a URL whose scheme is gone: what starts at the first
slash. -/
def dropHost : List Char → List Char
  | [] => []
  | c :: cs => if c = '/' then c :: cs else dropHost cs

/-- The path of an absolute URL without query or fragment. -/
def urlPath (url : String) : String :=
  String.mk (dropHost (dropScheme url.data))

/-! ## Sample collaborators, for the concrete instances below -/

/-- A user profile such as the Google provider returns. -/
def sampleUser : User :=
  { Provider := "google", Email := "a@b.com", Name := "A B", FirstName := "A", LastName := "B",
    NickName := "ab", Description := "", UserID := "42", AvatarURL := "http://img/ab.png",
    Location := "", AccessToken := "tok", RefreshToken := "ref", ExpiresAt := "2030-01-01" }

/-- A provider client that rejects every request (say, on a state mismatch),
deleting its own session cookie as it does, and answers 400 when asked to
begin a flow. -/
def rejectingGothic : Gothic :=
  { CompleteUserAuth := fun _ =>
      { cookies := ["_gothic_session=; Max-Age=0"], result := Except.error "state token mismatch" },
    BeginAuthHandler := fun _ w => (w.WriteHeader 400).Write "no provider\n",
    Logout := fun _ => ([], some "Could not delete user session ") }

/-- A provider client that accepts every request with `sampleUser` and
writes no cookie. -/
def acceptingGothic : Gothic :=
  { CompleteUserAuth := fun _ => { cookies := [], result := Except.ok sampleUser },
    BeginAuthHandler := fun _ w => w,
    Logout := fun _ => (["_gothic_session=; Max-Age=0"], none) }

/-- A server around a provider client, with a trivial health result. -/
def sampleServer (g : Gothic) : Server Unit :=
  { gothic := g, dbHealth := (), jsonMarshal := fun _ => ("\x7b\x7d", none) }

/-- The callback request of the Google flow, as the router hands it to the
handler. -/
def sampleCallback : Request :=
  { method := "GET", path := "/auth/callback/google", query := "state=s&code=c",
    urlParams := [("provider", "google")], ctx := [] }

/-- A cookie store as the session library builds it, before any setting. -/
def sampleNewCookieStore (k : String) : CookieStore :=
  { keyPairs := k, codecMaxAge := 0,
    Options := { Path := "", Domain := "", MaxAge := 0, Secure := true, HttpOnly := false } }

/-- A process in which nothing is registered yet. -/
def noGlobals : Globals :=
  { Store := none, providers := [], stdout := [] }

/-- The registrations `NewAuth` leaves when it starts from `noGlobals` with
empty credentials. -/
def sampleRegistered : Globals :=
  { Store := some
      { keyPairs := "randomString", codecMaxAge := 2592000,
        Options := { Path := "/", Domain := "", MaxAge := 2592000,
                     Secure := false, HttpOnly := true } },
    providers := [{ name := "google", ClientKey := "", Secret := "",
                    CallbackURL := "http://localhost:3000/auth/callback/google/" }],
    stdout := ["Authentication initialized."] }

/-- An environment in which no variable is set. -/
def emptyEnv : String → String := fun _ => ""

/-- A browser that holds no session yet, in front of Google: a flow starts
with the redirect to the authorization endpoint, and there is nothing to
complete. -/
def firstVisit : Upstream :=
  { sessionProvider := fun _ => none,
    BeginAuth := fun p _ =>
      Except.ok ("https://accounts.google.com/o/oauth2/auth?client_id=" ++ p.ClientKey
          ++ "&response_type=code&scope=email&state=state",
        ["_gothic_session=state"]),
    Complete := fun _ _ =>
      { cookies := [],
        result := Except.error "could not find a matching session for this request" },
    Logout := fun _ => (["_gothic_session=; Max-Age=0"], none) }

/-- A request as it reaches the router, nothing bound yet. -/
def inbound (path query : String) : Request :=
  { method := "GET", path := path, query := query, urlParams := [], ctx := [] }

/-! ## The response writer under the session store -/

theorem storeCookies_header (cs : List String) (w : ResponseWriter) :
    (storeCookies w cs).header = w.header ++ cs.map (fun c => ("Set-Cookie", c)) := by
  unfold storeCookies
  induction cs generalizing w with
  | nil => simp
  | cons c cs ih =>
    simp only [List.foldl_cons, List.map_cons]
    rw [ih]
    simp [ResponseWriter.addHeader, Header.add]

theorem storeCookies_wroteHeader (cs : List String) (w : ResponseWriter) :
    (storeCookies w cs).wroteHeader = w.wroteHeader := by
  unfold storeCookies
  induction cs generalizing w with
  | nil => simp
  | cons c cs ih =>
    simp only [List.foldl_cons]
    rw [ih]
    simp [ResponseWriter.addHeader]

theorem storeCookies_body (cs : List String) (w : ResponseWriter) :
    (storeCookies w cs).body = w.body := by
  unfold storeCookies
  induction cs generalizing w with
  | nil => simp
  | cons c cs ih =>
    simp only [List.foldl_cons]
    rw [ih]
    simp [ResponseWriter.addHeader]

theorem storeCookies_status (cs : List String) (w : ResponseWriter) :
    (storeCookies w cs).status = w.status := by
  unfold storeCookies
  induction cs generalizing w with
  | nil => simp
  | cons c cs ih =>
    simp only [List.foldl_cons]
    rw [ih]
    simp [ResponseWriter.addHeader]

theorem storeCookies_sent (cs : List String) (w : ResponseWriter) :
    (storeCookies w cs).sent = w.sent := by
  unfold storeCookies
  induction cs generalizing w with
  | nil => simp
  | cons c cs ih =>
    simp only [List.foldl_cons]
    rw [ih]
    simp [ResponseWriter.addHeader]

theorem filter_cookieLines_ne (cs : List String) (k : String) (hk : k ≠ "Set-Cookie") :
    (cs.map (fun c => ("Set-Cookie", c))).filter (fun kv => kv.1 != k)
      = cs.map (fun c => ("Set-Cookie", c)) := by
  induction cs with
  | nil => simp
  | cons c cs ih =>
    simp only [List.map_cons]
    rw [List.filter_cons_of_pos, ih]
    simpa using fun h => hk h.symm

theorem filter_cookieLines_eq (cs : List String) :
    (cs.map (fun c => ("Set-Cookie", c))).filter (fun kv => kv.1 == "Set-Cookie")
      = cs.map (fun c => ("Set-Cookie", c)) := by
  induction cs with
  | nil => simp
  | cons c cs ih => simp

theorem filter_cookieLines_other (cs : List String) (k : String) (hk : k ≠ "Set-Cookie") :
    (cs.map (fun c => ("Set-Cookie", c))).filter (fun kv => kv.1 == k) = [] := by
  induction cs with
  | nil => simp
  | cons c cs ih =>
    simp only [List.map_cons]
    rw [List.filter_cons_of_neg, ih]
    simpa using fun h => hk h.symm

theorem map_snd_cookieLines (cs : List String) :
    (cs.map (fun c => ("Set-Cookie", c))).map (fun kv => kv.2) = cs := by
  induction cs with
  | nil => simp
  | cons c cs ih => simp

/-! ## The handlers -/

/-- C1: when `CompleteUserAuth` answers an error on the callback request,
`getAuthCallbackFunction` responds with status 401 and the message
"Authentication failed" (which `http.Error` ends with a newline), sends no
`Location` header, and writes no session itself: the `Set-Cookie` lines of the
response are exactly those the provider client wrote, and the client is
called once and nothing else is. -/
theorem getAuthCallbackFunction_error {H : Type} (s : Server H) (r : Request) (err : String)
    (h : (s.gothic.CompleteUserAuth
      (r.WithContextValue "provider" (URLParam r "provider"))).result = Except.error err) :
    (getAuthCallbackFunction s ResponseWriter.fresh r).response.status = 401
    ∧ (getAuthCallbackFunction s ResponseWriter.fresh r).response.body
        = "Authentication failed" ++ "\n"
    ∧ (getAuthCallbackFunction s ResponseWriter.fresh r).response.get "Location" = none
    ∧ Header.values (getAuthCallbackFunction s ResponseWriter.fresh r).response.header "Set-Cookie"
        = (s.gothic.CompleteUserAuth
            (r.WithContextValue "provider" (URLParam r "provider"))).cookies
    ∧ (getAuthCallbackFunction s ResponseWriter.fresh r).calls
        = [Call.CompleteUserAuth (r.WithContextValue "provider" (URLParam r "provider"))] := by
  simp only [getAuthCallbackFunction, h]
  simp [Exec.response, ResponseWriter.finish, httpError, ResponseWriter.Write,
    ResponseWriter.WriteHeader, ResponseWriter.setHeader, ResponseWriter.delHeader,
    storeCookies_header, storeCookies_wroteHeader, storeCookies_body, storeCookies_status,
    ResponseWriter.fresh, Header.set, Header.del, Header.values, Response.get,
    filter_cookieLines_ne, filter_cookieLines_eq, filter_cookieLines_other, map_snd_cookieLines]

/-- C1 at a concrete input: the rejecting client on the Google callback. -/
theorem getAuthCallbackFunction_error_witness :
    (getAuthCallbackFunction (sampleServer rejectingGothic) ResponseWriter.fresh
        sampleCallback).response.status = 401
    ∧ (getAuthCallbackFunction (sampleServer rejectingGothic) ResponseWriter.fresh
        sampleCallback).response.body = "Authentication failed" ++ "\n"
    ∧ (getAuthCallbackFunction (sampleServer rejectingGothic) ResponseWriter.fresh
        sampleCallback).response.get "Location" = none
    ∧ Header.values (getAuthCallbackFunction (sampleServer rejectingGothic) ResponseWriter.fresh
        sampleCallback).response.header "Set-Cookie" = ["_gothic_session=; Max-Age=0"]
    ∧ (getAuthCallbackFunction (sampleServer rejectingGothic) ResponseWriter.fresh
        sampleCallback).calls
        = [Call.CompleteUserAuth (sampleCallback.WithContextValue "provider" "google")] :=
  getAuthCallbackFunction_error (sampleServer rejectingGothic) sampleCallback
    "state token mismatch" rfl

/-- C2 as stated fails: the accepting client returns a profile and the
response of `getAuthCallbackFunction` carries no `Set-Cookie` line at all,
so no session holding the profile is established by the handler. -/
theorem getAuthCallbackFunction_no_session_cookie :
    (acceptingGothic.CompleteUserAuth
        (sampleCallback.WithContextValue "provider" (URLParam sampleCallback "provider"))).result
      = Except.ok sampleUser
    ∧ Header.values (getAuthCallbackFunction (sampleServer acceptingGothic) ResponseWriter.fresh
        sampleCallback).response.header "Set-Cookie" = []
    ∧ (getAuthCallbackFunction (sampleServer acceptingGothic) ResponseWriter.fresh
        sampleCallback).response.status = 302 :=
  ⟨rfl, by decide, by decide⟩

/-- C2, amended: when `CompleteUserAuth` answers a profile on the callback
request, `getAuthCallbackFunction` responds with status 302 and `Location`
"http://localhost:5173" whatever the profile holds; it writes no session
itself (the `Set-Cookie` lines of the response are exactly those the provider
client wrote, and the client is called once and nothing else is); the profile
goes to the log only. -/
theorem getAuthCallbackFunction_success {H : Type} (s : Server H) (r : Request) (user : User)
    (h : (s.gothic.CompleteUserAuth
      (r.WithContextValue "provider" (URLParam r "provider"))).result = Except.ok user) :
    (getAuthCallbackFunction s ResponseWriter.fresh r).response.status = 302
    ∧ (getAuthCallbackFunction s ResponseWriter.fresh r).response.get "Location"
        = some "http://localhost:5173"
    ∧ Header.values (getAuthCallbackFunction s ResponseWriter.fresh r).response.header "Set-Cookie"
        = (s.gothic.CompleteUserAuth
            (r.WithContextValue "provider" (URLParam r "provider"))).cookies
    ∧ (getAuthCallbackFunction s ResponseWriter.fresh r).calls
        = [Call.CompleteUserAuth (r.WithContextValue "provider" (URLParam r "provider"))]
    ∧ (getAuthCallbackFunction s ResponseWriter.fresh r).log = userLogLines user := by
  simp only [getAuthCallbackFunction, h]
  have hct : (storeCookies ResponseWriter.fresh (s.gothic.CompleteUserAuth
      (r.WithContextValue "provider" (URLParam r "provider"))).cookies).header.has "Content-Type"
      = false := by
    rw [storeCookies_header]
    simp [Header.has, ResponseWriter.fresh]
  simp only [httpRedirect, hct]
  by_cases hg : r.method = "GET" <;> by_cases hh : r.method = "HEAD" <;>
  simp [hg, hh, Exec.response, ResponseWriter.finish, ResponseWriter.Write,
    ResponseWriter.WriteHeader, ResponseWriter.setHeader, Request.WithContextValue,
    storeCookies_header, storeCookies_wroteHeader, storeCookies_body, storeCookies_status,
    ResponseWriter.fresh, Header.set, Header.values, Response.get,
    filter_cookieLines_ne, filter_cookieLines_eq, filter_cookieLines_other, map_snd_cookieLines]

/-- C2 amended, at a concrete input: the accepting client on the Google
callback. -/
theorem getAuthCallbackFunction_success_witness :
    (getAuthCallbackFunction (sampleServer acceptingGothic) ResponseWriter.fresh
        sampleCallback).response.status = 302
    ∧ (getAuthCallbackFunction (sampleServer acceptingGothic) ResponseWriter.fresh
        sampleCallback).response.get "Location" = some "http://localhost:5173"
    ∧ Header.values (getAuthCallbackFunction (sampleServer acceptingGothic) ResponseWriter.fresh
        sampleCallback).response.header "Set-Cookie" = []
    ∧ (getAuthCallbackFunction (sampleServer acceptingGothic) ResponseWriter.fresh
        sampleCallback).calls
        = [Call.CompleteUserAuth (sampleCallback.WithContextValue "provider" "google")]
    ∧ (getAuthCallbackFunction (sampleServer acceptingGothic) ResponseWriter.fresh
        sampleCallback).log = userLogLines sampleUser :=
  getAuthCallbackFunction_success (sampleServer acceptingGothic) sampleCallback sampleUser rfl

/-- C3: on every request, whatever `gothic.Logout` answers (cookies or none,
error or none), `logoutHandler` responds with status 307 and `Location` "/";
running it a second time, on the same writer or on a fresh one and with a
provider client that answers differently, gives the same status and
`Location`. -/
theorem logoutHandler_redirects {H : Type} (s s2 : Server H) (r : Request) :
    (logoutHandler s ResponseWriter.fresh r).response.status = 307
    ∧ (logoutHandler s ResponseWriter.fresh r).response.get "Location" = some "/"
    ∧ (logoutHandler s2 (logoutHandler s ResponseWriter.fresh r).w r).response.status
        = (logoutHandler s ResponseWriter.fresh r).response.status
    ∧ (logoutHandler s2 (logoutHandler s ResponseWriter.fresh r).w r).response.get "Location"
        = (logoutHandler s ResponseWriter.fresh r).response.get "Location"
    ∧ (logoutHandler s2 ResponseWriter.fresh r).response.status
        = (logoutHandler s ResponseWriter.fresh r).response.status
    ∧ (logoutHandler s2 ResponseWriter.fresh r).response.get "Location"
        = (logoutHandler s ResponseWriter.fresh r).response.get "Location" := by
  simp [logoutHandler, Exec.response, ResponseWriter.finish,
    ResponseWriter.WriteHeader, ResponseWriter.setHeader,
    storeCookies_header, storeCookies_wroteHeader, storeCookies_body, storeCookies_status,
    storeCookies_sent,
    ResponseWriter.fresh, Header.set, Header.values, Response.get,
    filter_cookieLines_ne, filter_cookieLines_eq, filter_cookieLines_other, map_snd_cookieLines]

/-- C6: whatever the health result is, `healthHandler` responds with status
200, `Content-Type` "application/json" and, as body, exactly the bytes
`json.Marshal` produced for that result. -/
theorem healthHandler_serialises {H : Type} (s : Server H) (r : Request) :
    (healthHandler s ResponseWriter.fresh r).response.status = 200
    ∧ (healthHandler s ResponseWriter.fresh r).response.get "Content-Type"
        = some "application/json"
    ∧ (healthHandler s ResponseWriter.fresh r).response.body = (s.jsonMarshal s.dbHealth).1 := by
  simp [healthHandler, Exec.response, ResponseWriter.finish, ResponseWriter.Write,
    ResponseWriter.WriteHeader, ResponseWriter.setHeader,
    ResponseWriter.fresh, Header.set, Header.values, Response.get]

/-- C7: when `CompleteUserAuth` answers a profile, `authHandler` responds 200
with `userTemplate` rendered on that profile, no `Location` header, and never
calls `BeginAuthHandler`; when it answers an error, the handler writes nothing
of its own (the writer is what `BeginAuthHandler` leaves) and calls
`BeginAuthHandler` exactly once, on a request whose context value "provider"
is the URL parameter `provider`. -/
theorem authHandler_branches {H : Type} (s : Server H) (r : Request) :
    match (s.gothic.CompleteUserAuth r).result with
    | Except.ok user =>
      (authHandler s ResponseWriter.fresh r).response.status = 200
      ∧ (authHandler s ResponseWriter.fresh r).response.body = userTemplate user
      ∧ (authHandler s ResponseWriter.fresh r).response.get "Location" = none
      ∧ (authHandler s ResponseWriter.fresh r).calls = [Call.CompleteUserAuth r]
    | Except.error _ =>
      (authHandler s ResponseWriter.fresh r).calls
          = [Call.CompleteUserAuth r,
             Call.BeginAuthHandler (r.WithContextValue "provider" (URLParam r "provider"))]
      ∧ (r.WithContextValue "provider" (URLParam r "provider")).ContextValue "provider"
          = some (URLParam r "provider")
      ∧ (authHandler s ResponseWriter.fresh r).w
          = s.gothic.BeginAuthHandler (r.WithContextValue "provider" (URLParam r "provider"))
              (storeCookies ResponseWriter.fresh (s.gothic.CompleteUserAuth r).cookies) := by
  cases h : (s.gothic.CompleteUserAuth r).result with
  | error e =>
    simp [authHandler, h, Request.WithContextValue, Request.ContextValue]
  | ok user =>
    simp [authHandler, h, Exec.response, ResponseWriter.finish, ResponseWriter.Write,
      ResponseWriter.WriteHeader,
      storeCookies_header, storeCookies_wroteHeader, storeCookies_body, storeCookies_status,
      ResponseWriter.fresh, Header.values, Response.get,
      filter_cookieLines_ne, filter_cookieLines_eq, filter_cookieLines_other, map_snd_cookieLines]

/-! ## The initializer -/

theorem find_after_UseProviders (ps : List Provider) (p : Provider) :
    (ps.filter (fun q => q.name != p.name) ++ [p]).find? (fun q => q.name == p.name) = some p := by
  induction ps with
  | nil => simp
  | cons q qs ih =>
    by_cases hq : q.name = p.name
    · simp [List.filter_cons, hq, ih]
    · simp [List.filter_cons, hq, ih]

/-- C4 as stated fails: with no variable set (so both credentials empty)
and the `.env` file loaded, `NewAuth` returns normally, having registered the
session store and a Google provider with empty credentials. -/
theorem NewAuth_accepts_empty_credentials :
    emptyEnv "GOOGLE_CLIENT_ID" = "" ∧ emptyEnv "GOOGLE_CLIENT_SECRET" = ""
    ∧ NewAuth sampleNewCookieStore none emptyEnv noGlobals = Except.ok sampleRegistered
    ∧ sampleRegistered.Store.isSome = true
    ∧ (GetProvider sampleRegistered "google").map (fun p => (p.ClientKey, p.Secret))
        = some ("", "") :=
  ⟨rfl, rfl, rfl, by decide, by decide⟩

/-- C4, amended: `NewAuth` ends the process (`log.Fatal`) exactly when the
`.env` file fails to load; otherwise, whatever the environment holds, empty
or unset credentials included, it returns normally with a session store
registered and the Google provider registered under the credentials read and
the fixed callback URL. -/
theorem NewAuth_outcome (NewCookieStore : String → CookieStore) (loadError : Option String)
    (Getenv : String → String) (g : Globals) :
    match loadError with
    | some _ => NewAuth NewCookieStore loadError Getenv g = Except.error "Error loading .env file"
    | none =>
      ∃ g1, NewAuth NewCookieStore loadError Getenv g = Except.ok g1
        ∧ g1.Store.isSome = true
        ∧ GetProvider g1 "google"
            = some (googleNew (Getenv "GOOGLE_CLIENT_ID") (Getenv "GOOGLE_CLIENT_SECRET")
                callbackURL) := by
  cases loadError with
  | some e => simp [NewAuth]
  | none =>
    simp only [NewAuth]
    refine ⟨_, rfl, rfl, ?_⟩
    simp only [GetProvider, UseProviders]
    exact find_after_UseProviders g.providers
      (googleNew (Getenv "GOOGLE_CLIENT_ID") (Getenv "GOOGLE_CLIENT_SECRET") callbackURL)

/-- C5: whenever `NewAuth` returns normally, the store it registered as
`gothic.Store` has max-age 2592000 seconds (86400 * 30, thirty days), path "/",
`HttpOnly` true and `Secure` equal to `IsProd`, whatever the environment
holds and whatever the library's defaults were. -/
theorem NewAuth_store_policy (NewCookieStore : String → CookieStore) (loadError : Option String)
    (Getenv : String → String) (g g1 : Globals)
    (h : NewAuth NewCookieStore loadError Getenv g = Except.ok g1) :
    ∃ store, g1.Store = some store
      ∧ store.Options.MaxAge = 2592000
      ∧ store.Options.MaxAge = 86400 * 30
      ∧ store.codecMaxAge = 2592000
      ∧ store.Options.Path = "/"
      ∧ store.Options.HttpOnly = true
      ∧ store.Options.Secure = IsProd := by
  cases loadError with
  | some e => simp [NewAuth] at h
  | none =>
    simp only [NewAuth, Except.ok.injEq] at h
    subst h
    refine ⟨_, rfl, ?_, ?_, ?_, rfl, rfl, rfl⟩ <;>
    simp [CookieStore.setMaxAge, MaxAge]

/-- C5 at a concrete input: an empty environment and a library default that
differs from the policy in every field. -/
theorem NewAuth_store_policy_witness :
    ∃ store, sampleRegistered.Store = some store
      ∧ store.Options.MaxAge = 2592000
      ∧ store.Options.MaxAge = 86400 * 30
      ∧ store.codecMaxAge = 2592000
      ∧ store.Options.Path = "/"
      ∧ store.Options.HttpOnly = true
      ∧ store.Options.Secure = IsProd :=
  NewAuth_store_policy sampleNewCookieStore none emptyEnv noGlobals sampleRegistered rfl

/-! ## The routing table -/

theorem stripStatic_append (s rest : List Char) : stripStatic s (s ++ rest) = some rest := by
  induction s with
  | nil => cases rest <;> rfl
  | cons c cs ih => simp [stripStatic, ih]

theorem stripStatic_eq_some (s path rest : List Char) (h : stripStatic s path = some rest) :
    path = s ++ rest := by
  induction s generalizing path with
  | nil =>
    cases path <;> simp_all [stripStatic]
  | cons c cs ih =>
    cases path with
    | nil => simp [stripStatic] at h
    | cons d ds =>
      by_cases hcd : c = d
      · simp only [stripStatic, hcd, if_true] at h
        simp [hcd, ih ds h]
      · simp [stripStatic, hcd] at h

theorem paramSplit_no_slash (v : List Char) (h : '/' ∉ v) : paramSplit v = (v, []) := by
  induction v with
  | nil => rfl
  | cons c cs ih =>
    have hc : c ≠ '/' := fun hc => h (by simp [hc])
    have hcs : '/' ∉ cs := fun hcs => h (by simp [hcs])
    simp [paramSplit, hc, ih hcs]

theorem paramSplit_append (p : List Char) : (paramSplit p).1 ++ (paramSplit p).2 = p := by
  induction p with
  | nil => rfl
  | cons c cs ih =>
    by_cases hc : c = '/'
    · simp [paramSplit, hc]
    · simp [paramSplit, hc, ih]

theorem paramSplit_fst_no_slash (p : List Char) : '/' ∉ (paramSplit p).1 := by
  induction p with
  | nil => simp [paramSplit]
  | cons c cs ih =>
    by_cases hc : c = '/'
    · simp [paramSplit, hc]
    · simp only [paramSplit, hc, if_false, List.mem_cons, not_or]
      exact ⟨fun h => hc h.symm, ih⟩

/-- A pattern that is one literal matches exactly that literal. -/
theorem matchSegs_static (e : Bool) (s path : List Char) (ps : List (String × String))
    (h : matchSegs e [Seg.static s] path = some ps) : path = s := by
  simp only [matchSegs] at h
  cases hs : stripStatic s path with
  | none => simp [hs] at h
  | some rest =>
    rw [hs] at h
    cases rest with
    | nil => simpa using stripStatic_eq_some s path [] hs
    | cons c cs => simp [matchSegs] at h

/-- A pattern that is a literal and a closing parameter matches only the
literal followed by slash-free text. -/
theorem matchSegs_static_param (e : Bool) (s path : List Char) (name : String)
    (ps : List (String × String))
    (h : matchSegs e [Seg.static s, Seg.param name] path = some ps) :
    ∃ v, path = s ++ v ∧ '/' ∉ v := by
  simp only [matchSegs] at h
  cases hs : stripStatic s path with
  | none => simp [hs] at h
  | some rest =>
    rw [hs] at h
    refine ⟨rest, stripStatic_eq_some s path rest hs, ?_⟩
    by_cases hc : (rest.isEmpty && !e) = true
    · simp only [hc, if_true] at h
      exact absurd h (by simp)
    · simp only [hc] at h
      cases h2 : (paramSplit rest).2 with
      | nil =>
        have := paramSplit_append rest
        rw [h2, List.append_nil] at this
        rw [← this]
        exact paramSplit_fst_no_slash rest
      | cons c cs =>
        rw [h2] at h
        simp [matchSegs] at h

/-- The match of a literal and a closing parameter on the literal followed
by non-empty slash-free text. -/
theorem matchSegs_static_param_value (e : Bool) (s v : List Char) (name : String)
    (hne : v ≠ []) (hsl : '/' ∉ v) :
    matchSegs e [Seg.static s, Seg.param name] (s ++ v) = some [(name, String.mk v)] := by
  have hv : v.isEmpty = false := by cases v <;> simp_all
  simp [matchSegs, stripStatic_append, paramSplit_no_slash v hsl, hv]

theorem parse_index : parsePattern "/".data false [] = [Seg.static ['/']] := by decide

theorem parse_health :
    parsePattern "/health".data false [] = [Seg.static ['/', 'h', 'e', 'a', 'l', 't', 'h']] := by
  decide

theorem parse_auth :
    parsePattern "/auth/\x7bprovider\x7d".data false []
      = [Seg.static ['/', 'a', 'u', 't', 'h', '/'], Seg.param "provider"] := by
  decide

theorem parse_callback :
    parsePattern "/auth/callback/\x7bprovider\x7d".data false []
      = [Seg.static ['/', 'a', 'u', 't', 'h', '/', 'c', 'a', 'l', 'l', 'b', 'a', 'c', 'k', '/'],
         Seg.param "provider"] := by
  decide

theorem parse_logout :
    parsePattern "/logout/\x7bprovider\x7d".data false []
      = [Seg.static ['/', 'l', 'o', 'g', 'o', 'u', 't', '/'], Seg.param "provider"] := by
  decide

theorem bind_index (e : Bool) (path : String)
    (h : (Route.bind e ⟨"GET", "/", HandlerId.indexHandler⟩ path).isSome = true) :
    path.data = ['/'] := by
  obtain ⟨ps, hps⟩ := Option.isSome_iff_exists.mp h
  simp only [Route.bind, parse_index] at hps
  exact matchSegs_static e _ _ ps hps

theorem bind_health (e : Bool) (path : String)
    (h : (Route.bind e ⟨"GET", "/health", HandlerId.healthHandler⟩ path).isSome = true) :
    path.data = ['/', 'h', 'e', 'a', 'l', 't', 'h'] := by
  obtain ⟨ps, hps⟩ := Option.isSome_iff_exists.mp h
  simp only [Route.bind, parse_health] at hps
  exact matchSegs_static e _ _ ps hps

theorem bind_auth (e : Bool) (path : String)
    (h : (Route.bind e ⟨"GET", "/auth/\x7bprovider\x7d", HandlerId.authHandler⟩ path).isSome
      = true) :
    ∃ v, path.data = ['/', 'a', 'u', 't', 'h', '/'] ++ v ∧ '/' ∉ v := by
  obtain ⟨ps, hps⟩ := Option.isSome_iff_exists.mp h
  simp only [Route.bind, parse_auth] at hps
  exact matchSegs_static_param e _ _ _ ps hps

theorem bind_callback (e : Bool) (path : String)
    (h : (Route.bind e ⟨"GET", "/auth/callback/\x7bprovider\x7d",
      HandlerId.getAuthCallbackFunction⟩ path).isSome = true) :
    ∃ v, path.data
      = ['/', 'a', 'u', 't', 'h', '/', 'c', 'a', 'l', 'l', 'b', 'a', 'c', 'k', '/'] ++ v
      ∧ '/' ∉ v := by
  obtain ⟨ps, hps⟩ := Option.isSome_iff_exists.mp h
  simp only [Route.bind, parse_callback] at hps
  exact matchSegs_static_param e _ _ _ ps hps

theorem bind_logout (e : Bool) (path : String)
    (h : (Route.bind e ⟨"GET", "/logout/\x7bprovider\x7d", HandlerId.logoutHandler⟩ path).isSome
      = true) :
    ∃ v, path.data = ['/', 'l', 'o', 'g', 'o', 'u', 't', '/'] ++ v ∧ '/' ∉ v := by
  obtain ⟨ps, hps⟩ := Option.isSome_iff_exists.mp h
  simp only [Route.bind, parse_logout] at hps
  exact matchSegs_static_param e _ _ _ ps hps

/-- What a path looks like when a route of the table matches it. -/
theorem route_shape (e : Bool) (path : String) (rt : Route) (h : rt ∈ RegisterRoutes)
    (m : (rt.bind e path).isSome = true) :
    (rt.handler = HandlerId.indexHandler ∧ path.data = ['/'])
    ∨ (rt.handler = HandlerId.healthHandler ∧ path.data = ['/', 'h', 'e', 'a', 'l', 't', 'h'])
    ∨ (rt.handler = HandlerId.authHandler
        ∧ ∃ v, path.data = ['/', 'a', 'u', 't', 'h', '/'] ++ v ∧ '/' ∉ v)
    ∨ (rt.handler = HandlerId.getAuthCallbackFunction
        ∧ ∃ v, path.data
            = ['/', 'a', 'u', 't', 'h', '/', 'c', 'a', 'l', 'l', 'b', 'a', 'c', 'k', '/'] ++ v
          ∧ '/' ∉ v)
    ∨ (rt.handler = HandlerId.logoutHandler
        ∧ ∃ v, path.data = ['/', 'l', 'o', 'g', 'o', 'u', 't', '/'] ++ v ∧ '/' ∉ v) := by
  simp only [RegisterRoutes, List.mem_cons, List.mem_singleton, List.not_mem_nil, or_false] at h
  rcases h with rfl | rfl | rfl | rfl | rfl
  · exact Or.inl ⟨rfl, bind_index e path m⟩
  · exact Or.inr (Or.inl ⟨rfl, bind_health e path m⟩)
  · exact Or.inr (Or.inr (Or.inl ⟨rfl, bind_auth e path m⟩))
  · exact Or.inr (Or.inr (Or.inr (Or.inl ⟨rfl, bind_callback e path m⟩)))
  · exact Or.inr (Or.inr (Or.inr (Or.inr ⟨rfl, bind_logout e path m⟩)))

/-- The table names each handler once. -/
theorem route_of_handler (rt1 rt2 : Route) (h1 : rt1 ∈ RegisterRoutes) (h2 : rt2 ∈ RegisterRoutes)
    (h : rt1.handler = rt2.handler) : rt1 = rt2 := by
  simp only [RegisterRoutes, List.mem_cons, List.mem_singleton, List.not_mem_nil, or_false] at h1 h2
  rcases h1 with rfl | rfl | rfl | rfl | rfl <;> rcases h2 with rfl | rfl | rfl | rfl | rfl <;>
    first | rfl | exact absurd h (by decide)

/-- No path matches the patterns of two different routes of the table. -/
theorem routes_disjoint (e : Bool) (path : String) (rt1 rt2 : Route)
    (h1 : rt1 ∈ RegisterRoutes) (h2 : rt2 ∈ RegisterRoutes)
    (m1 : (rt1.bind e path).isSome = true) (m2 : (rt2.bind e path).isSome = true) :
    rt1 = rt2 := by
  apply route_of_handler rt1 rt2 h1 h2
  rcases route_shape e path rt1 h1 m1 with ⟨k1, a⟩ | ⟨k1, a⟩ | ⟨k1, u, a, hu⟩ | ⟨k1, u, a, hu⟩
      | ⟨k1, u, a, hu⟩ <;>
    rcases route_shape e path rt2 h2 m2 with ⟨k2, b⟩ | ⟨k2, b⟩ | ⟨k2, v, b, hv⟩ | ⟨k2, v, b, hv⟩
      | ⟨k2, v, b, hv⟩ <;>
    rw [a] at b <;>
    first
      | (rw [k1, k2]; done)
      | (exfalso; simp at b; done)
      | (exfalso; simp at b; rw [b] at hu; simp at hu)
      | (exfalso; simp at b; rw [← b] at hv; simp at hv)

theorem data_auth (p : String) :
    ("/auth/" ++ p).data = ['/', 'a', 'u', 't', 'h', '/'] ++ p.data := by
  simp [String.data_append]

theorem data_callback (p : String) :
    ("/auth/callback/" ++ p).data
      = ['/', 'a', 'u', 't', 'h', '/', 'c', 'a', 'l', 'l', 'b', 'a', 'c', 'k', '/'] ++ p.data := by
  simp [String.data_append]

theorem data_logout (p : String) :
    ("/logout/" ++ p).data = ['/', 'l', 'o', 'g', 'o', 'u', 't', '/'] ++ p.data := by
  simp [String.data_append]

theorem bind_index_auth (e : Bool) (p : String) :
    Route.bind e ⟨"GET", "/", HandlerId.indexHandler⟩ ("/auth/" ++ p) = none := by
  unfold Route.bind
  rw [parse_index, data_auth]
  simp [matchSegs, stripStatic]

theorem bind_health_auth (e : Bool) (p : String) :
    Route.bind e ⟨"GET", "/health", HandlerId.healthHandler⟩ ("/auth/" ++ p) = none := by
  unfold Route.bind
  rw [parse_health, data_auth]
  simp [matchSegs, stripStatic]

theorem bind_index_callback (e : Bool) (p : String) :
    Route.bind e ⟨"GET", "/", HandlerId.indexHandler⟩ ("/auth/callback/" ++ p) = none := by
  unfold Route.bind
  rw [parse_index, data_callback]
  simp [matchSegs, stripStatic]

theorem bind_health_callback (e : Bool) (p : String) :
    Route.bind e ⟨"GET", "/health", HandlerId.healthHandler⟩ ("/auth/callback/" ++ p) = none := by
  unfold Route.bind
  rw [parse_health, data_callback]
  simp [matchSegs, stripStatic]

theorem bind_auth_callback (e : Bool) (p : String) :
    Route.bind e ⟨"GET", "/auth/\x7bprovider\x7d", HandlerId.authHandler⟩ ("/auth/callback/" ++ p)
      = none := by
  cases h : Route.bind e ⟨"GET", "/auth/\x7bprovider\x7d", HandlerId.authHandler⟩
      ("/auth/callback/" ++ p) with
  | none => rfl
  | some ps =>
    exfalso
    obtain ⟨v, hv, hsl⟩ := bind_auth e ("/auth/callback/" ++ p) (by rw [h]; rfl)
    rw [data_callback] at hv
    simp at hv
    rw [← hv] at hsl
    simp at hsl

theorem bind_index_logout (e : Bool) (p : String) :
    Route.bind e ⟨"GET", "/", HandlerId.indexHandler⟩ ("/logout/" ++ p) = none := by
  unfold Route.bind
  rw [parse_index, data_logout]
  simp [matchSegs, stripStatic]

theorem bind_health_logout (e : Bool) (p : String) :
    Route.bind e ⟨"GET", "/health", HandlerId.healthHandler⟩ ("/logout/" ++ p) = none := by
  unfold Route.bind
  rw [parse_health, data_logout]
  simp [matchSegs, stripStatic]

theorem bind_auth_logout (e : Bool) (p : String) :
    Route.bind e ⟨"GET", "/auth/\x7bprovider\x7d", HandlerId.authHandler⟩ ("/logout/" ++ p)
      = none := by
  unfold Route.bind
  rw [parse_auth, data_logout]
  simp [matchSegs, stripStatic]

theorem bind_callback_logout (e : Bool) (p : String) :
    Route.bind e ⟨"GET", "/auth/callback/\x7bprovider\x7d", HandlerId.getAuthCallbackFunction⟩
      ("/logout/" ++ p) = none := by
  unfold Route.bind
  rw [parse_callback, data_logout]
  simp [matchSegs, stripStatic]

theorem bind_auth_value (e : Bool) (p : String) (hne : p ≠ "") (hsl : '/' ∉ p.data) :
    Route.bind e ⟨"GET", "/auth/\x7bprovider\x7d", HandlerId.authHandler⟩ ("/auth/" ++ p)
      = some [("provider", p)] := by
  have hd : p.data ≠ [] := fun h => hne (by cases p; simp_all)
  unfold Route.bind
  rw [parse_auth, data_auth]
  exact matchSegs_static_param_value e _ p.data "provider" hd hsl

theorem bind_callback_value (e : Bool) (p : String) (hne : p ≠ "") (hsl : '/' ∉ p.data) :
    Route.bind e ⟨"GET", "/auth/callback/\x7bprovider\x7d", HandlerId.getAuthCallbackFunction⟩
      ("/auth/callback/" ++ p) = some [("provider", p)] := by
  have hd : p.data ≠ [] := fun h => hne (by cases p; simp_all)
  unfold Route.bind
  rw [parse_callback, data_callback]
  exact matchSegs_static_param_value e _ p.data "provider" hd hsl

theorem bind_logout_value (e : Bool) (p : String) (hne : p ≠ "") (hsl : '/' ∉ p.data) :
    Route.bind e ⟨"GET", "/logout/\x7bprovider\x7d", HandlerId.logoutHandler⟩ ("/logout/" ++ p)
      = some [("provider", p)] := by
  have hd : p.data ≠ [] := fun h => hne (by cases p; simp_all)
  unfold Route.bind
  rw [parse_logout, data_logout]
  exact matchSegs_static_param_value e _ p.data "provider" hd hsl

theorem dispatch_auth (e : Bool) (r : Request) (p : String)
    (hne : p ≠ "") (hsl : '/' ∉ p.data) :
    dispatch e RegisterRoutes { r with method := "GET", path := "/auth/" ++ p }
      = Dispatch.found HandlerId.authHandler
          { r with method := "GET", path := "/auth/" ++ p, urlParams := [("provider", p)] } := by
  simp [dispatch, findHandler, RegisterRoutes, bind_index_auth, bind_health_auth,
    bind_auth_value e p hne hsl]

theorem dispatch_callback (e : Bool) (r : Request) (p : String)
    (hne : p ≠ "") (hsl : '/' ∉ p.data) :
    dispatch e RegisterRoutes { r with method := "GET", path := "/auth/callback/" ++ p }
      = Dispatch.found HandlerId.getAuthCallbackFunction
          { r with method := "GET", path := "/auth/callback/" ++ p,
                   urlParams := [("provider", p)] } := by
  simp [dispatch, findHandler, RegisterRoutes, bind_index_callback, bind_health_callback,
    bind_auth_callback, bind_callback_value e p hne hsl]

theorem dispatch_logout (e : Bool) (r : Request) (p : String)
    (hne : p ≠ "") (hsl : '/' ∉ p.data) :
    dispatch e RegisterRoutes { r with method := "GET", path := "/logout/" ++ p }
      = Dispatch.found HandlerId.logoutHandler
          { r with method := "GET", path := "/logout/" ++ p, urlParams := [("provider", p)] } := by
  simp [dispatch, findHandler, RegisterRoutes, bind_index_logout, bind_health_logout,
    bind_auth_logout, bind_callback_logout, bind_logout_value e p hne hsl]

/-- C9: for every non-empty slash-free segment `p`, the table of
`RegisterRoutes` sends GET "/" to `indexHandler`, "/health" to
`healthHandler`, "/auth/p" to `authHandler`, "/auth/callback/p" to
`getAuthCallbackFunction` and "/logout/p" to `logoutHandler`, the last three
with the URL parameter `provider` bound to `p` in the request the handler
receives; and no path matches the patterns of two routes. -/
theorem RegisterRoutes_dispatch (e : Bool) (r : Request) (p : String)
    (hne : p ≠ "") (hsl : '/' ∉ p.data) :
    dispatch e RegisterRoutes { r with method := "GET", path := "/" }
        = Dispatch.found HandlerId.indexHandler
            { r with method := "GET", path := "/", urlParams := [] }
    ∧ dispatch e RegisterRoutes { r with method := "GET", path := "/health" }
        = Dispatch.found HandlerId.healthHandler
            { r with method := "GET", path := "/health", urlParams := [] }
    ∧ dispatch e RegisterRoutes { r with method := "GET", path := "/auth/" ++ p }
        = Dispatch.found HandlerId.authHandler
            { r with method := "GET", path := "/auth/" ++ p, urlParams := [("provider", p)] }
    ∧ dispatch e RegisterRoutes { r with method := "GET", path := "/auth/callback/" ++ p }
        = Dispatch.found HandlerId.getAuthCallbackFunction
            { r with method := "GET", path := "/auth/callback/" ++ p,
                     urlParams := [("provider", p)] }
    ∧ dispatch e RegisterRoutes { r with method := "GET", path := "/logout/" ++ p }
        = Dispatch.found HandlerId.logoutHandler
            { r with method := "GET", path := "/logout/" ++ p, urlParams := [("provider", p)] }
    ∧ URLParam { r with urlParams := [("provider", p)] } "provider" = p
    ∧ ∀ (path : String) (rt1 rt2 : Route), rt1 ∈ RegisterRoutes → rt2 ∈ RegisterRoutes →
        (rt1.bind e path).isSome = true → (rt2.bind e path).isSome = true → rt1 = rt2 := by
  refine ⟨?_, ?_, ?_, ?_, ?_, ?_, ?_⟩
  · have h1 : ("/" : String).data = ['/'] := rfl
    simp [dispatch, findHandler, RegisterRoutes, Route.bind, parse_index, h1, matchSegs,
      stripStatic]
  · have h1 : ("/health" : String).data = ['/', 'h', 'e', 'a', 'l', 't', 'h'] := rfl
    simp [dispatch, findHandler, RegisterRoutes, Route.bind, parse_index, parse_health, h1,
      matchSegs, stripStatic]
  · exact dispatch_auth e r p hne hsl
  · exact dispatch_callback e r p hne hsl
  · exact dispatch_logout e r p hne hsl
  · simp [URLParam]
  · exact fun path rt1 rt2 h1 h2 m1 m2 => routes_disjoint e path rt1 rt2 h1 h2 m1 m2

/-- C9 at a concrete input: the segment "google". -/
theorem RegisterRoutes_dispatch_witness :
    dispatch false RegisterRoutes (inbound "/" "")
        = Dispatch.found HandlerId.indexHandler (inbound "/" "")
    ∧ dispatch false RegisterRoutes (inbound "/health" "")
        = Dispatch.found HandlerId.healthHandler (inbound "/health" "")
    ∧ dispatch false RegisterRoutes { inbound "" "" with method := "GET", path := "/auth/" ++ "google" }
        = Dispatch.found HandlerId.authHandler
            { inbound "" "" with method := "GET", path := "/auth/" ++ "google",
                                 urlParams := [("provider", "google")] }
    ∧ dispatch false RegisterRoutes
          { inbound "" "" with method := "GET", path := "/auth/callback/" ++ "google" }
        = Dispatch.found HandlerId.getAuthCallbackFunction
            { inbound "" "" with method := "GET", path := "/auth/callback/" ++ "google",
                                 urlParams := [("provider", "google")] }
    ∧ dispatch false RegisterRoutes
          { inbound "" "" with method := "GET", path := "/logout/" ++ "google" }
        = Dispatch.found HandlerId.logoutHandler
            { inbound "" "" with method := "GET", path := "/logout/" ++ "google",
                                 urlParams := [("provider", "google")] }
    ∧ URLParam { inbound "" "" with urlParams := [("provider", "google")] } "provider" = "google"
    ∧ ∀ (path : String) (rt1 rt2 : Route), rt1 ∈ RegisterRoutes → rt2 ∈ RegisterRoutes →
        (rt1.bind false path).isSome = true → (rt2.bind false path).isSome = true → rt1 = rt2 :=
  RegisterRoutes_dispatch false (inbound "" "") "google" (by decide) (by decide)

/-- C10: the URL `NewAuth` registers with the Google provider is
"http://localhost:3000/auth/callback/google/"; its path
"/auth/callback/google/" ends in a slash and is matched by no route of the
table, so the router answers 404 and `getAuthCallbackFunction` never runs,
whereas the same path without the closing slash reaches it with provider
"google". -/
theorem callbackURL_not_routed (e : Bool) (NewCookieStore : String → CookieStore)
    (Getenv : String → String) (g : Globals) :
    (∃ g1, NewAuth NewCookieStore none Getenv g = Except.ok g1
        ∧ (GetProvider g1 "google").map (fun p => p.CallbackURL) = some callbackURL)
    ∧ urlPath callbackURL = "/auth/callback/google/"
    ∧ (∀ rt ∈ RegisterRoutes, rt.bind e (urlPath callbackURL) = none)
    ∧ dispatch e RegisterRoutes (inbound (urlPath callbackURL) "state=s&code=c")
        = Dispatch.notFound
    ∧ (ServeHTTP e (sampleServer acceptingGothic) ResponseWriter.fresh
        (inbound (urlPath callbackURL) "state=s&code=c")).response.status = 404
    ∧ (ServeHTTP e (sampleServer acceptingGothic) ResponseWriter.fresh
        (inbound (urlPath callbackURL) "state=s&code=c")).calls = []
    ∧ dispatch e RegisterRoutes (inbound "/auth/callback/google" "state=s&code=c")
        = Dispatch.found HandlerId.getAuthCallbackFunction
            { inbound "/auth/callback/google" "state=s&code=c" with
              urlParams := [("provider", "google")] } := by
  refine ⟨⟨_, rfl, ?_⟩, by decide, ?_, ?_, ?_, ?_, ?_⟩
  · have hf := find_after_UseProviders g.providers
      (googleNew (Getenv "GOOGLE_CLIENT_ID") (Getenv "GOOGLE_CLIENT_SECRET")
        "http://localhost:3000/auth/callback/google/")
    simp only [GetProvider, UseProviders]
    exact congrArg (Option.map (fun p => p.CallbackURL)) hf
  · cases e <;> decide
  · cases e <;> decide
  · cases e <;> decide
  · cases e <;> decide
  · cases e <;> decide

/-! ## Unregistered providers -/

theorem queryGet_empty (k : String) : queryGet "" k = "" := by
  unfold queryGet
  have h : ("" : String).data = [] := rfl
  rw [h]
  by_cases hk : k.data = []
  · simp [splitAmp, splitEq, hk]
  · have hk2 : ¬ ([] = k.data) := fun h2 => hk h2.symm
    simp [splitAmp, splitEq, hk2]

/-- Where an unregistered provider is refused: a request without query string
and without a provider in its context, for a provider segment `p` that is not
registered,
is answered by status 400 and the error of `goth.GetProvider`, whatever lies
upstream, which is never consulted. -/
theorem auth_unregistered_bad_request (e : Bool) (g : Globals) (up : Upstream) (r : Request)
    (p : String) (hne : p ≠ "") (hsl : '/' ∉ p.data) (hreg : GetProvider g p = none)
    (hq : r.query = "") (hctx : r.ContextValue "provider" = none) :
    (ServeHTTP e (sampleServer (gothicOver g up)) ResponseWriter.fresh
        { r with method := "GET", path := "/auth/" ++ p }).response
      = { status := 400, header := [], body := "no provider for " ++ p ++ " exists" ++ "\n" } := by
  obtain ⟨m, pa, q, ups, cx⟩ := r
  simp only at hq
  subst hq
  have hd := dispatch_auth e ⟨m, pa, "", ups, cx⟩ p hne hsl
  simp only at hd
  have hp : URLParam ⟨"GET", "/auth/" ++ p, "", [("provider", p)], cx⟩ "provider" = p := by
    simp [URLParam]
  have hlook : lookupProvider g p = Except.error ("no provider for " ++ p ++ " exists") := by
    simp [lookupProvider, hreg]
  have hc1 : Request.ContextValue ⟨"GET", "/auth/" ++ p, "", [("provider", p)], cx⟩ "provider"
      = none := hctx
  have hname1 : GetProviderName up ⟨"GET", "/auth/" ++ p, "", [("provider", p)], cx⟩
      = Except.ok p := by
    simp [GetProviderName, queryGet_empty, hc1, hp, hne]
  have hname2 : GetProviderName up
      ⟨"GET", "/auth/" ++ p, "", [("provider", p)], ("provider", p) :: cx⟩ = Except.ok p := by
    simp [GetProviderName, queryGet_empty, Request.ContextValue]
  simp only [ServeHTTP, hd, HandlerId.run, authHandler, sampleServer, gothicOver, GetAuthURL,
    hname1, hname2, hlook, hp, Request.WithContextValue]
  simp [Exec.response, ResponseWriter.finish, ResponseWriter.Write,
    ResponseWriter.WriteHeader, ResponseWriter.fresh, storeCookies]

/-- C8: the login request for the unregistered provider "github" whose query
names "google".  The router hands it to `authHandler` with provider "github",
which is not among the providers `NewAuth` registered; the handler stores
"github" in the request context, yet the provider client reads the query
first, so the response is the 307 redirect of the Google flow and not a 4xx.
The same request without the query is answered by status 400. -/
theorem auth_query_names_registered_provider (e : Bool) :
    NewAuth sampleNewCookieStore none emptyEnv noGlobals = Except.ok sampleRegistered
    ∧ GetProvider sampleRegistered "github" = none
    ∧ dispatch e RegisterRoutes (inbound "/auth/github" "provider=google")
        = Dispatch.found HandlerId.authHandler
            { inbound "/auth/github" "provider=google" with
              urlParams := [("provider", "github")] }
    ∧ (ServeHTTP e (sampleServer (gothicOver sampleRegistered firstVisit)) ResponseWriter.fresh
        (inbound "/auth/github" "provider=google")).response.status = 307
    ∧ (ServeHTTP e (sampleServer (gothicOver sampleRegistered firstVisit)) ResponseWriter.fresh
        (inbound "/auth/github" "provider=google")).response.get "Location"
        = some "https://accounts.google.com/o/oauth2/auth?client_id=&response_type=code&scope=email&state=state"
    ∧ ¬ (400 ≤ (ServeHTTP e (sampleServer (gothicOver sampleRegistered firstVisit))
          ResponseWriter.fresh (inbound "/auth/github" "provider=google")).response.status
        ∧ (ServeHTTP e (sampleServer (gothicOver sampleRegistered firstVisit))
          ResponseWriter.fresh (inbound "/auth/github" "provider=google")).response.status < 500)
    ∧ (ServeHTTP e (sampleServer (gothicOver sampleRegistered firstVisit)) ResponseWriter.fresh
        (inbound "/auth/github" "provider=google")).calls
        = [Call.CompleteUserAuth
             { inbound "/auth/github" "provider=google" with
               urlParams := [("provider", "github")] },
           Call.BeginAuthHandler
             { inbound "/auth/github" "provider=google" with
               urlParams := [("provider", "github")], ctx := [("provider", "github")] }]
    ∧ (ServeHTTP e (sampleServer (gothicOver sampleRegistered firstVisit)) ResponseWriter.fresh
        (inbound "/auth/github" "")).response.status = 400 := by
  refine ⟨rfl, by decide, ?_, ?_, ?_, ?_, ?_, ?_⟩ <;> cases e <;> decide

end GoAuth
